import Mathlib

/-
Verification of the excel-mcp server's dispatch/handler layer.

The definitions below are a shallow embedding of `src/excel_mcp/server.py`
and `src/excel_mcp/document_extractor.py`.  Python exceptions are modelled
by an explicit exception-kind inductive; a handler body is modelled as a
function from the delegate's outcome (or an environment describing the
network response, the temp directory, the filesystem, ...) to its result.
A handler result is either an in-band string returned to the transport
(including the `Error: ...` failure strings) or a re-raised exception.
-/

set_option autoImplicit false
set_option linter.unusedVariables false

deriving instance DecidableEq for Except

namespace ExcelMCP

/- String primitives.  Python's `str.startswith`, `str.endswith` and
`str.split('/')` are embedded as structural recursion over the character
list of the string, so that every definition evaluates by kernel
reduction on concrete inputs. -/

/-- Character-list core of `str.startswith`: does the first list begin
with the second? -/
def charsBeginWith : List Char → List Char → Bool
  | _, [] => true
  | [], _ :: _ => false
  | c :: cs, p :: ps => c = p && charsBeginWith cs ps

/-- Python `s.startswith(p)`. -/
def strBeginsWith (s p : String) : Bool := charsBeginWith s.data p.data

/-- Python `s.endswith(p)`. -/
def strEndsWith (s p : String) : Bool := charsBeginWith s.data.reverse p.data.reverse

/-- Character-list core of `s.split('/')`. -/
def splitOnSlash : List Char → List (List Char)
  | [] => [[]]
  | c :: cs =>
    let r := splitOnSlash cs
    if c = '/' then [] :: r
    else
      match r with
      | [] => [[c]]
      | h :: t => (c :: h) :: t

/-- Python `s.split('/')`. -/
def strSplitSlash (s : String) : List String :=
  (splitOnSlash s.data).map (fun l => String.mk l)

/-- Python `'/'.join(parts)`. -/
def joinSlash : List String → String
  | [] => ""
  | [s] => s
  | s :: t :: rest => s ++ "/" ++ joinSlash (t :: rest)

/-- A run of `n` slashes, as prepended by `normpath` for rooted paths. -/
def repeatSlash : Nat → String
  | 0 => ""
  | n + 1 => "/" ++ repeatSlash n

/-- The URL-scheme test used verbatim by every URL-reading tool:
`filepath.startswith("http://") or filepath.startswith("https://")`. -/
def hasHttpScheme (u : String) : Bool :=
  strBeginsWith u "http://" || strBeginsWith u "https://"

/-- Exception kinds that can cross a handler boundary.  The first eight are
the domain-error taxonomy imported from `excel_mcp.exceptions`
(server.py lines 8-17); `requestException` models
`requests.exceptions.RequestException`; `otherError` models any other
(unclassified) Python exception. -/
inductive ExcKind where
  | validationError
  | workbookError
  | sheetError
  | dataError
  | formattingError
  | calculationError
  | pivotError
  | chartError
  | requestException
  | otherError
  deriving DecidableEq, Repr

/-- Membership in the domain-error taxonomy named by the spec
(ValidationError ... ChartError).  `requestException` and `otherError` are
outside the taxonomy. -/
def inTaxonomy : ExcKind → Bool
  | .requestException => false
  | .otherError => false
  | _ => true

/-- Outcome of a handler when the delegate raised an exception: either an
in-band string result (the `return f"Error: ..."` branches) or the
exception is re-raised to the transport (the bare `raise` branches). -/
inductive HandlerOutcome where
  | inband (msg : String)
  | reraise (k : ExcKind) (msg : String)
  deriving DecidableEq, Repr

/-- True when the outcome is an in-band string (a Failure result), false
when the exception propagates to the transport. -/
def HandlerOutcome.isInband : HandlerOutcome → Bool
  | .inband _ => true
  | .reraise _ _ => false

/-- Exception dispatch of the `apply_formula` handler
(server.py lines 125-129): `except (ValidationError, CalculationError)`
returns an `Error:` string, `except Exception` logs and re-raises. -/
def apply_formula_on_exc (k : ExcKind) (msg : String) : HandlerOutcome :=
  match k with
  | .validationError => .inband ("Error: " ++ msg)
  | .calculationError => .inband ("Error: " ++ msg)
  | _ => .reraise k msg

/-- Exception dispatch of the `read_data_from_excel` handler
(server.py lines 305-309): `except requests.exceptions.RequestException`
returns an `Error: 网络请求失败` string and `except Exception` logs the
error and returns `f"Error: {e}"` — every exception, classified or not,
becomes an in-band string. -/
def read_data_from_excel_on_exc (k : ExcKind) (msg : String) : HandlerOutcome :=
  match k with
  | .requestException => .inband ("Error: 网络请求失败 - " ++ msg)
  | _ => .inband ("Error: " ++ msg)

/-- Outcome of the rename delegate `excel_mcp.sheet.rename_sheet`: either a
result message or a raised exception, as seen by the handler. -/
abbrev DelegateResult := Except (ExcKind × String) String

/-- The `rename_worksheet` handler body (server.py lines 554-569): on a
delegate success it returns `result["message"]`; on
`except (ValidationError, SheetError)` it returns `f"Error: {str(e)}"`;
any other exception is logged and re-raised. -/
def rename_worksheet (delegate : DelegateResult) : DelegateResult :=
  match delegate with
  | .ok r => .ok r
  | .error e =>
    match e.1 with
    | .validationError => .ok ("Error: " ++ e.2)
    | .sheetError => .ok ("Error: " ++ e.2)
    | _ => .error e

/- Path resolution (server.py lines 87-101).  POSIX path strings are
modelled directly; `os.path.isabs`, `os.path.join`, `os.path.normpath`
and `os.path.abspath` are embedded following CPython's `posixpath`. -/

/-- CPython `posixpath.isabs`: a path is absolute when it starts with a
slash. -/
def isabs (p : String) : Bool := strBeginsWith p "/"

/-- CPython `posixpath.join` restricted to two components: an absolute
second component replaces the first; otherwise the components are joined
with a separator unless the first is empty or already ends in one. -/
def posixJoin (a b : String) : String :=
  if strBeginsWith b "/" then b
  else if a = "" ∨ strEndsWith a "/" then a ++ b
  else a ++ "/" ++ b

/-- Component loop of CPython `posixpath.normpath`: empty and `.`
components are dropped; `..` pops the previous component unless there is
nothing to pop (at the root it is dropped, at a relative head it is
kept).  The accumulator holds the processed components in reverse. -/
def normComps (rooted : Bool) : List String → List String → List String
  | acc, [] => acc.reverse
  | acc, c :: rest =>
    if c = "" ∨ c = "." then normComps rooted acc rest
    else if c ≠ ".." ∨ (¬rooted ∧ acc = []) ∨ acc.head? = some ".." then
      normComps rooted (c :: acc) rest
    else
      match acc with
      | [] => normComps rooted [] rest
      | _ :: acc0 => normComps rooted acc0 rest

/-- CPython `posixpath.normpath`: collapses duplicate separators and
resolves `.`/`..` components lexically, preserving the special
double-slash root. -/
def normpath (p : String) : String :=
  if p = "" then "."
  else
    let slashes : Nat :=
      if strBeginsWith p "/" then
        if strBeginsWith p "//" ∧ ¬strBeginsWith p "///" then 2 else 1
      else 0
    let comps := normComps (slashes > 0) [] (strSplitSlash p)
    let res := repeatSlash slashes ++ joinSlash comps
    if res = "" then "." else res

/-- CPython `posixpath.abspath` with the process working directory made
explicit: a relative path is joined against `cwd`, then normalised. -/
def abspath (cwd p : String) : String :=
  normpath (if isabs p then p else posixJoin cwd p)

/-- The path resolver `get_excel_path` (server.py lines 87-101), with the
module-global `EXCEL_FILES_PATH` and the process working directory made
explicit parameters.  An absolute filename is returned unchanged; a
relative filename is resolved against `EXCEL_FILES_PATH` when that is
set, and against the working directory (`os.path.abspath`) otherwise. -/
def get_excel_path (excelFilesPath : Option String) (cwd : String) (filename : String) : String :=
  if isabs filename then filename
  else
    match excelFilesPath with
    | none => abspath cwd filename
    | some base => posixJoin base filename

/- Remote fetch.  The network is modelled by the response the server
returns for the requested URL: an HTTP status, the size of the body the
client ends up writing, whether `openpyxl.load_workbook` accepts the
downloaded bytes, and the library's error text when it does not. -/

/-- Environment describing what the network returns for one URL. -/
structure HttpResponse where
  status : Nat
  bodySize : Nat
  validExcel : Bool
  excelError : String
  deriving DecidableEq, Repr

/-- Result of a fetch stage: the in-band outcome (an `Error: ...` message
or a local path), the number of HTTP requests issued, and the temp files
written during the stage. -/
structure FetchOutcome where
  result : Except String String
  requestsMade : Nat
  filesWritten : List String
  deriving DecidableEq, Repr

/-- Fetch stage of `read_data_from_excel` (server.py lines 221-262): the
scheme is checked first, then the `max_rows`/`max_cells` guard, and only
then is the HTTP request issued; a non-200 status returns before the temp
file is opened; an empty body or bytes `load_workbook` rejects return an
error after the temp file was written; otherwise the temp path is used as
the local file.  The same inline fetch appears in `preview_excel_data`,
`get_workbook_metadata`, `read_excel_data_in_batches` and
`get_excel_file_info`. -/
def read_data_fetch (filepath : String) (max_rows max_cells : Int)
    (tmpName : String) (resp : HttpResponse) : FetchOutcome :=
  if ¬hasHttpScheme filepath then
    { result := .error "Error: 只支持通过URL读取Excel文件，请输入有效的http/https链接。"
      requestsMade := 0
      filesWritten := [] }
  else if max_rows ≤ 0 ∨ max_cells ≤ 0 then
    { result := .error "Error: max_rows 和 max_cells 必须大于0"
      requestsMade := 0
      filesWritten := [] }
  else if resp.status ≠ 200 then
    { result := .error ("Error: 无法下载文件，HTTP状态码: " ++ toString resp.status)
      requestsMade := 1
      filesWritten := [] }
  else if resp.bodySize = 0 then
    { result := .error "Error: 下载的文件为空"
      requestsMade := 1
      filesWritten := [tmpName] }
  else if ¬resp.validExcel then
    { result := .error ("Error: 文件不是有效的Excel文件 - " ++ resp.excelError)
      requestsMade := 1
      filesWritten := [tmpName] }
  else
    { result := .ok tmpName
      requestsMade := 1
      filesWritten := [tmpName] }

/-- The helper `DocumentExtractor.download_file`
(document_extractor.py lines 60-140): the URL scheme is not checked and
the request is issued directly; a non-200 status raises (wrapped into
`无法下载文件: ...`) before the temp file is created; otherwise the body
is streamed to a fresh temp file and the path is returned.  The body size
and its parseability are never inspected here. -/
def download_file (url : String) (tmpName : String) (resp : HttpResponse) : FetchOutcome :=
  if resp.status ≠ 200 then
    { result := .error ("无法下载文件: HTTP " ++ toString resp.status)
      requestsMade := 1
      filesWritten := [] }
  else
    { result := .ok tmpName
      requestsMade := 1
      filesWritten := [tmpName] }

/-- Document fetch path as invoked by the tools: both
`extract_tables_from_document` (server.py lines 1209-1216) and
`preview_document_tables` (lines 1299-1308) validate the URL scheme and
return an in-band error before `download_file` is reached. -/
def document_url_guarded_fetch (url : String) (tmpName : String) (resp : HttpResponse) : FetchOutcome :=
  if ¬hasHttpScheme url then
    { result := .error "Error: 请输入有效的http/https链接"
      requestsMade := 0
      filesWritten := [] }
  else
    download_file url tmpName resp

/- Temp-directory lifecycle.  The temp directory is modelled as the list
of file names it holds; writing a file inserts its name (an overwrite
changes nothing), `os.remove` erases it. -/

/-- Effect on the temp directory of writing the named file. -/
def createFile (n : String) (d : List String) : List String :=
  if n ∈ d then d else d ++ [n]

/-- Effect on the temp directory of `os.remove` on the named file. -/
def removeFile (n : String) (d : List String) : List String := d.erase n

/-- Temp-directory contents after one `read_data_from_excel` invocation
(server.py lines 219-312): the temp name is minted before the download;
on a scheme or parameter failure the file was never created; once the
status check passes the file is written, and the `finally` block removes
it on every subsequent path, success or failure. -/
def read_data_temp_final (d0 : List String) (filepath : String)
    (max_rows max_cells : Int) (tmpName : String) (resp : HttpResponse) : List String :=
  if ¬hasHttpScheme filepath then d0
  else if max_rows ≤ 0 ∨ max_cells ≤ 0 then d0
  else if resp.status ≠ 200 then d0
  else removeFile tmpName (createFile tmpName d0)

/-- Temp-directory contents after one `extract_tables_from_document`
invocation (server.py lines 1207-1267 together with
`DocumentExtractor.extract_and_save`, document_extractor.py lines
321-373).  `extractionOk` states that table extraction succeeded and
found tables.  The downloaded document `dlName` is always removed by the
extractor's `finally` block, but the produced workbook `outName`
(written into `tempfile.gettempdir()`) is never deleted, and with
`auto_upload` the copy `upName` made for the SFTP push is never deleted
either (it survives even when the upload itself raises, since the copy
precedes the push). -/
def extract_tables_temp_final (d0 : List String) (url : String) (resp : HttpResponse)
    (extractionOk : Bool) (dlName outName upName : String) (auto_upload : Bool) : List String :=
  if ¬hasHttpScheme url then d0
  else if resp.status ≠ 200 then d0
  else
    let d1 := createFile dlName d0
    if ¬extractionOk then removeFile dlName d1
    else
      let d2 := createFile outName d1
      let d3 := removeFile dlName d2
      if auto_upload then createFile upName d3 else d3

/- Workbook model for `write_data_to_excel` (server.py lines 852-866).
A workbook is its ordered list of sheets; a sheet is a name together with
the association list of its written cells, keyed by (row, column) with
both 1-based as in openpyxl. -/

/-- One worksheet: a name and the cells that have been written, in write
order. -/
structure Sheet where
  name : String
  cells : List ((Nat × Nat) × String)
  deriving DecidableEq, Repr

/-- A workbook: its ordered sheets. -/
structure Workbook where
  sheets : List Sheet
  deriving DecidableEq, Repr

/-- Python `wb.sheetnames`. -/
def Workbook.sheetnames (wb : Workbook) : List String :=
  wb.sheets.map Sheet.name

/-- openpyxl `wb.create_sheet(name)`: appends a fresh empty sheet. -/
def Workbook.create_sheet (wb : Workbook) (n : String) : Workbook :=
  ⟨wb.sheets ++ [⟨n, []⟩]⟩

/-- Lookup of a sheet by name, as `wb[sheet_name]`. -/
def Workbook.findSheet (wb : Workbook) (n : String) : Option Sheet :=
  wb.sheets.find? (fun s => s.name = n)

/-- Modelled from the spec: `excel_mcp.workbook.create_workbook` is not
among the sources; per the spec's write-operation description and the
wrapped library's behaviour, creating a new workbook yields a single
empty default sheet. -/
def create_workbook_impl : Workbook := ⟨[⟨"Sheet", []⟩]⟩

/-- Parse an A1-style cell reference into (row, column), both 1-based:
uppercase letters give the column in base 26, the digits give the row. -/
def parseCellRef (s : String) : Option (Nat × Nat) :=
  let cs := s.data
  let letters := cs.takeWhile Char.isUpper
  let digits := cs.dropWhile Char.isUpper
  if letters ≠ [] ∧ digits ≠ [] ∧ digits.all Char.isDigit then
    some (digits.foldl (fun a c => a * 10 + (c.toNat - 48)) 0,
          letters.foldl (fun a c => a * 26 + (c.toNat - 64)) 0)
  else none

/-- openpyxl `ws.cell(row, column, value)` on the cell list: overwrites
the entry at the position when present, otherwise appends it. -/
def setCell (cells : List ((Nat × Nat) × String)) (pos : Nat × Nat) (v : String) :
    List ((Nat × Nat) × String) :=
  if cells.any (fun c => c.1 = pos) then
    cells.map (fun c => if c.1 = pos then (pos, v) else c)
  else cells ++ [(pos, v)]

/-- Write one data row left to right starting at (r, c). -/
def writeRow (cells : List ((Nat × Nat) × String)) (r c : Nat) :
    List String → List ((Nat × Nat) × String)
  | [] => cells
  | v :: vs => writeRow (setCell cells (r, c) v) r (c + 1) vs

/-- Write the data rows top to bottom starting at (r, c). -/
def writeRows (cells : List ((Nat × Nat) × String)) (r c : Nat) :
    List (List String) → List ((Nat × Nat) × String)
  | [] => cells
  | row :: rows => writeRows (writeRow cells r c row) (r + 1) c rows

/-- Modelled from the spec: `excel_mcp.data.write_data` is not among the
sources.  Per the spec's write-operation contract, it writes each
`data[i][j]` into the target sheet at the coordinate implied by the
start cell (start row + i, start column + j); a malformed start cell is
a validation failure and a missing target sheet is a data failure.  With
no sheet name the first (active) sheet is the target. -/
def write_data (wb : Workbook) (sheet_name : Option String)
    (data : List (List String)) (start_cell : String) : Except (ExcKind × String) Workbook :=
  match parseCellRef start_cell with
  | none => .error (.validationError, "Invalid start cell")
  | some rc =>
    let target := match sheet_name with
      | some n => n
      | none => ((wb.sheets.head?).map Sheet.name).getD ""
    if target ∈ wb.sheetnames then
      .ok ⟨wb.sheets.map (fun s =>
        if s.name = target then ⟨s.name, writeRows s.cells rc.1 rc.2 data⟩ else s)⟩
    else .error (.dataError, "Sheet not found")

/-- Preparation phase of `write_data_to_excel` (server.py lines 853-864):
when no file exists at the resolved path a new workbook is created there,
and when the given sheet name is absent it is created and the workbook
saved.  The filesystem state at the path is `fs` (`none` = no file). -/
def prepare_workbook (fs : Option Workbook) (sheet_name : Option String) : Workbook :=
  let wb0 := match fs with
    | none => create_workbook_impl
    | some wb => wb
  match sheet_name with
  | some n => if n ∈ wb0.sheetnames then wb0 else wb0.create_sheet n
  | none => wb0

/-- Workbook-producing core of the `write_data_to_excel` handler
(server.py lines 852-866): ensure the file and sheet exist, then delegate
to `write_data`. -/
def write_data_to_excel (fs : Option Workbook) (sheet_name : Option String)
    (data : List (List String)) (start_cell : String) : Except (ExcKind × String) Workbook :=
  write_data (prepare_workbook fs sheet_name) sheet_name data start_cell

/- Upload side-effect (server.py lines 867-881 and 1222-1253).  SFTP and
file-copy actions are recorded as an effect trace; `uploadOk` states
whether the SFTP push succeeds or raises. -/

/-- External file actions performed by the upload phase. -/
inductive Effect where
  | copyFile (src dst : String)
  | sftpPut (localPath remotePath : String)
  deriving DecidableEq, Repr

/-- Upload phase of `write_data_to_excel` (server.py lines 867-881): the
artifact is copied to a fresh `/tmp/uploaded_<uuid>.xlsx`, pushed over
SFTP to `/root/files/`, and the public URL is appended to the delegate's
success message.  An upload exception is not caught here: it falls
through to the handler's generic `except Exception`, which logs and
re-raises. -/
def write_data_upload (writeMsg : String) (uuidHex : String) (full_path : String)
    (uploadOk : Bool) : List Effect × Except (ExcKind × String) String :=
  let processedFilename := "uploaded_" ++ uuidHex ++ ".xlsx"
  let processedPath := "/tmp/" ++ processedFilename
  let remotePath := "/root/files/" ++ processedFilename
  if uploadOk then
    ([.copyFile full_path processedPath, .sftpPut processedPath remotePath],
     .ok (writeMsg ++ "\n公网下载链接: http://8.156.74.79:8001/" ++ processedFilename))
  else
    ([.copyFile full_path processedPath], .error (.otherError, "upload failed"))

/-- Response of `extract_tables_from_document` (server.py lines
1218-1267), with the extraction result abstracted to its success flag,
message and output path. -/
structure ExtractResponse where
  success : Bool
  message : String
  download_url : String
  uploaded_filename : String
  upload_error : Option String
  deriving DecidableEq, Repr

/-- Finishing phase of `extract_tables_from_document` (server.py lines
1218-1267): an unsuccessful extraction returns an in-band `Error:`
string; otherwise, with `auto_upload` and a produced output file, a copy
is made and pushed over SFTP and the public URL is recorded in the
response — but an upload exception is caught, recorded as
`upload_error`, and the response is still a success with an empty
download URL. -/
def extract_tables_finish (extractSuccess : Bool) (msg : String) (output_file : String)
    (auto_upload : Bool) (uuidHex : String) (uploadOk : Bool) :
    List Effect × Except String ExtractResponse :=
  if ¬extractSuccess then ([], .error ("Error: " ++ msg))
  else
    let uploadedFilename := "extracted_" ++ uuidHex ++ ".xlsx"
    let uploadedPath := "/tmp/" ++ uploadedFilename
    if auto_upload ∧ output_file ≠ "" then
      if uploadOk then
        ([.copyFile output_file uploadedPath,
          .sftpPut uploadedPath ("/root/files/" ++ uploadedFilename)],
         .ok { success := true
               message := msg
               download_url := "http://8.156.74.79:8001/" ++ uploadedFilename
               uploaded_filename := uploadedFilename
               upload_error := none })
      else
        ([.copyFile output_file uploadedPath],
         .ok { success := true
               message := msg
               download_url := ""
               uploaded_filename := ""
               upload_error := some "upload failed" })
    else
      ([], .ok { success := true
                 message := msg
                 download_url := ""
                 uploaded_filename := ""
                 upload_error := none })

/- Response-size limiting in `read_data_from_excel`
(server.py lines 273-287). -/

/-- The JSON payload assembled by `read_data_from_excel`, restricted to
the fields the truncation block touches; cells are abstracted to their
identities. -/
structure ReadResult where
  cells : List Nat
  truncated : Bool
  total_cells : Option Nat
  max_cells_limit : Option Nat
  max_rows_limit : Option Nat
  deriving DecidableEq, Repr

/-- The two truncation steps of `read_data_from_excel` (server.py lines
273-287): first, when more than `max_cells` cells were read, the list is
cut to the first `max_cells` and `total_cells` is set to the length of
the already-cut list; second, when the (possibly already cut) list still
exceeds `max_rows * 10` entries it is cut again to `max_rows * 10`,
without updating `total_cells`. -/
def limit_read_result (res : ReadResult) (max_rows max_cells : Nat) : ReadResult :=
  let r1 :=
    if res.cells.length > max_cells then
      let cut := res.cells.take max_cells
      { res with cells := cut, truncated := true
                 total_cells := some cut.length
                 max_cells_limit := some max_cells }
    else res
  if r1.cells.length > max_rows * 10 then
    { r1 with cells := r1.cells.take (max_rows * 10), truncated := true
              max_rows_limit := some max_rows }
  else r1

/- Helper lemmas shared by the claim theorems. -/

theorem createFile_of_not_mem {n : String} {d : List String} (h : n ∉ d) :
    createFile n d = d ++ [n] := by
  simp [createFile, h]

theorem removeFile_createFile_of_not_mem {n : String} {d : List String} (h : n ∉ d) :
    removeFile n (createFile n d) = d := by
  rw [createFile_of_not_mem h]
  unfold removeFile
  rw [List.erase_append_right _ h, List.erase_cons_head]
  simp

/-- C1.  The claim quantifies over every tool handler and states that all
unclassified exceptions are re-raised, never converted into an in-band
Failure result.  `read_data_from_excel` refutes it at a concrete input:
an unclassified exception (outside the taxonomy) is converted into the
in-band string `Error: boom` by its catch-all `except Exception` clause
(server.py lines 307-309) instead of being re-raised. -/
theorem C1_unclassified_converted_counterexample :
    inTaxonomy .otherError = false
    ∧ read_data_from_excel_on_exc .otherError "boom" = .inband "Error: boom"
    ∧ (read_data_from_excel_on_exc .otherError "boom").isInband = true :=
  ⟨rfl, rfl, rfl⟩

/-- C1 (amended).  Each handler converts exactly its own caught subset of
the taxonomy into an in-band Failure result: `apply_formula` converts
precisely ValidationError and CalculationError and re-raises every other
exception (taxonomy members included), while `read_data_from_excel`
converts every exception — classified or not — into an in-band
`Error: ...` string and never re-raises. -/
theorem C1_handler_exception_policy (k : ExcKind) (m : String) :
    (apply_formula_on_exc k m).isInband
      = (k == .validationError || k == .calculationError)
    ∧ (read_data_from_excel_on_exc k m).isInband = true := by
  cases k <;> exact ⟨rfl, rfl⟩

/-- C3.  For every URL that does not start with `http://` or `https://`,
both the inline spreadsheet fetch of `read_data_from_excel` and the
guarded document fetch of the extraction tools return an in-band error
with no HTTP request issued and no file written. -/
theorem C3_scheme_guard (url tmpName : String) (max_rows max_cells : Int)
    (resp : HttpResponse) (h : hasHttpScheme url = false) :
    (read_data_fetch url max_rows max_cells tmpName resp).requestsMade = 0
    ∧ (read_data_fetch url max_rows max_cells tmpName resp).filesWritten = []
    ∧ (∃ e, (read_data_fetch url max_rows max_cells tmpName resp).result = .error e)
    ∧ (document_url_guarded_fetch url tmpName resp).requestsMade = 0
    ∧ (document_url_guarded_fetch url tmpName resp).filesWritten = []
    ∧ (∃ e, (document_url_guarded_fetch url tmpName resp).result = .error e) := by
  simp [read_data_fetch, document_url_guarded_fetch, h]

/-- C3 witness: the guard fires for a concrete `ftp://` URL. -/
theorem C3_scheme_guard_witness :
    hasHttpScheme "ftp://example.com/a.xlsx" = false
    ∧ ((read_data_fetch "ftp://example.com/a.xlsx" 100 1000 "/tmp/t.xlsx"
          ⟨200, 5, true, ""⟩).requestsMade = 0
        ∧ (read_data_fetch "ftp://example.com/a.xlsx" 100 1000 "/tmp/t.xlsx"
          ⟨200, 5, true, ""⟩).filesWritten = []
        ∧ (∃ e, (read_data_fetch "ftp://example.com/a.xlsx" 100 1000 "/tmp/t.xlsx"
          ⟨200, 5, true, ""⟩).result = .error e)
        ∧ (document_url_guarded_fetch "ftp://example.com/a.xlsx" "/tmp/t.xlsx"
          ⟨200, 5, true, ""⟩).requestsMade = 0
        ∧ (document_url_guarded_fetch "ftp://example.com/a.xlsx" "/tmp/t.xlsx"
          ⟨200, 5, true, ""⟩).filesWritten = []
        ∧ (∃ e, (document_url_guarded_fetch "ftp://example.com/a.xlsx" "/tmp/t.xlsx"
          ⟨200, 5, true, ""⟩).result = .error e)) :=
  ⟨by decide,
   C3_scheme_guard "ftp://example.com/a.xlsx" "/tmp/t.xlsx" 100 1000
     ⟨200, 5, true, ""⟩ (by decide)⟩

/-- C8.  When the rename delegate raises a SheetError (for instance for a
duplicate rename target), the `rename_worksheet` handler returns the
in-band Failure string carrying the delegate's message (`.ok` here means
an ordinary string response: nothing is raised to the transport). -/
theorem C8_rename_sheet_error_inband (m : String) :
    rename_worksheet (.error (.sheetError, m)) = .ok ("Error: " ++ m) := rfl

/-- C10.  The claim states that whenever more cells were read than
`max_cells`, the final payload's cell list is exactly the first
`max_cells` entries and `total_cells` equals the truncated list's
length.  Concrete refutation with 25 cells, `max_rows = 1` and
`max_cells = 20`: the second, row-based truncation (server.py lines
283-287) cuts the list again to `max_rows * 10 = 10` entries, so the
final list has 10 entries, not 20, while `total_cells` stays 20 — equal
to neither the final list's length nor the original cell count. -/
theorem C10_total_cells_counterexample :
    (List.range 25).length > 20
    ∧ limit_read_result ⟨List.range 25, false, none, none, none⟩ 1 20
        = ⟨List.range 10, true, some 20, some 20, some 1⟩
    ∧ (limit_read_result ⟨List.range 25, false, none, none, none⟩ 1 20).cells.length = 10 := by
  refine ⟨by decide, by decide, by decide⟩

/-- C10 (amended).  Whenever the read result holds more cells than
`max_cells` and `max_cells ≤ max_rows * 10` (so the second, row-based
truncation cannot fire after the first), the returned payload's cell
list is exactly the first `max_cells` entries, `truncated` is true and
`total_cells` is `max_cells` — the truncated length, not the original
cell count. -/
theorem C10_truncation (res : ReadResult) (max_rows max_cells : Nat)
    (h1 : res.cells.length > max_cells) (h2 : max_cells ≤ max_rows * 10) :
    (limit_read_result res max_rows max_cells).cells = res.cells.take max_cells
    ∧ (limit_read_result res max_rows max_cells).truncated = true
    ∧ (limit_read_result res max_rows max_cells).total_cells = some max_cells := by
  have hlen : (res.cells.take max_cells).length = max_cells := by
    rw [List.length_take]
    exact min_eq_left (le_of_lt h1)
  unfold limit_read_result
  rw [if_pos h1]
  simp only [hlen]
  rw [if_neg (not_lt.mpr h2)]
  exact ⟨rfl, rfl, rfl⟩

/-- C10 witness: 25 cells, `max_rows = 100`, `max_cells = 20`. -/
theorem C10_truncation_witness :
    (limit_read_result ⟨List.range 25, false, none, none, none⟩ 100 20).cells
        = (List.range 25).take 20
    ∧ (limit_read_result ⟨List.range 25, false, none, none, none⟩ 100 20).truncated = true
    ∧ (limit_read_result ⟨List.range 25, false, none, none, none⟩ 100 20).total_cells = some 20 :=
  C10_truncation ⟨List.range 25, false, none, none, none⟩ 100 20 (by decide) (by decide)

/-- C2.  The claim states that no temporary file created during an
invocation still exists after it returns.  Concrete refutation: a
successful `extract_tables_from_document` run with `auto_upload` on an
initially empty temp directory leaves two files behind — the produced
workbook `o` and the upload copy `u` — so the temp directory's file
count changes from 0 to 2. -/
theorem C2_extract_leaves_files_counterexample :
    extract_tables_temp_final [] "http://e/a.pdf" ⟨200, 5, true, ""⟩ true "d" "o" "u" true
      = ["o", "u"]
    ∧ (extract_tables_temp_final [] "http://e/a.pdf" ⟨200, 5, true, ""⟩ true "d" "o" "u" true).length
        = 2 := by
  refine ⟨by decide, by decide⟩

/-- C2 (amended).  The downloaded input temp file is always cleaned up:
`read_data_from_excel` leaves the temp directory unchanged on every
path, and so do the failure paths of `extract_tables_from_document`.
But a successful extraction leaves the produced workbook in the temp
directory, plus — under `auto_upload` — the copy made for the SFTP push:
the directory grows by exactly those two files. -/
theorem C2_temp_lifecycle (d0 : List String) (filepath url : String)
    (max_rows max_cells : Int) (tmpName dlName outName upName : String)
    (resp : HttpResponse)
    (hs : hasHttpScheme url = true) (h200 : resp.status = 200)
    (h1 : tmpName ∉ d0) (h2 : dlName ∉ d0) (h3 : outName ∉ d0) (h5 : upName ∉ d0)
    (h4 : dlName ≠ outName) (h6 : upName ≠ outName) :
    read_data_temp_final d0 filepath max_rows max_cells tmpName resp = d0
    ∧ extract_tables_temp_final d0 url resp true dlName outName upName true
        = d0 ++ [outName, upName]
    ∧ extract_tables_temp_final d0 url resp false dlName outName upName true = d0 := by
  refine ⟨?_, ?_, ?_⟩
  · unfold read_data_temp_final
    split
    · rfl
    · split
      · rfl
      · split
        · rfl
        · exact removeFile_createFile_of_not_mem h1
  · have e1 : extract_tables_temp_final d0 url resp true dlName outName upName true
        = createFile upName (removeFile dlName (createFile outName (createFile dlName d0))) := by
      unfold extract_tables_temp_final
      rw [if_neg (by simp [hs]), if_neg (by simp [h200])]
      simp
    rw [e1, createFile_of_not_mem h2]
    rw [createFile_of_not_mem (show outName ∉ d0 ++ [dlName] by
      simp only [List.mem_append, List.mem_singleton]
      push_neg
      exact ⟨h3, Ne.symm h4⟩)]
    unfold removeFile
    rw [List.append_assoc, List.erase_append_right _ h2, List.singleton_append,
      List.erase_cons_head]
    rw [createFile_of_not_mem (show upName ∉ d0 ++ [outName] by
      simp only [List.mem_append, List.mem_singleton]
      push_neg
      exact ⟨h5, h6⟩)]
    simp
  · have e2 : extract_tables_temp_final d0 url resp false dlName outName upName true
        = removeFile dlName (createFile dlName d0) := by
      unfold extract_tables_temp_final
      rw [if_neg (by simp [hs]), if_neg (by simp [h200])]
      simp
    rw [e2]
    exact removeFile_createFile_of_not_mem h2

/-- C2 witness: concrete fresh names over an initially one-file temp
directory. -/
theorem C2_temp_lifecycle_witness :
    read_data_temp_final ["keep"] "http://e/a.xlsx" 100 1000 "t" ⟨200, 5, true, ""⟩ = ["keep"]
    ∧ extract_tables_temp_final ["keep"] "http://e/a.pdf" ⟨200, 5, true, ""⟩ true "d" "o" "u" true
        = ["keep"] ++ ["o", "u"]
    ∧ extract_tables_temp_final ["keep"] "http://e/a.pdf" ⟨200, 5, true, ""⟩ false "d" "o" "u" true
        = ["keep"] :=
  C2_temp_lifecycle ["keep"] "http://e/a.xlsx" "http://e/a.pdf" 100 1000 "t" "d" "o" "u"
    ⟨200, 5, true, ""⟩ (by decide) rfl (by decide) (by decide) (by decide) (by decide)
    (by decide) (by decide)

/-- C4.  The claim states the fetch fails exactly when the scheme is bad,
the status is not 200, the body is empty, or the bytes fail to parse.
Concrete refutation on the document fetch helper
`DocumentExtractor.download_file`: a 200 response whose body is empty
and does not parse as any expected format still returns a local path. -/
theorem C4_download_accepts_empty_counterexample :
    (HttpResponse.mk 200 0 false "").bodySize = 0
    ∧ (HttpResponse.mk 200 0 false "").validExcel = false
    ∧ (download_file "http://e/a.pdf" "t.pdf" ⟨200, 0, false, ""⟩).result = .ok "t.pdf" :=
  ⟨rfl, rfl, rfl⟩

/-- C4 (amended).  The inline spreadsheet fetch of `read_data_from_excel`
(given positive `max_rows`/`max_cells`) fails exactly when the scheme is
not http/https, the status is not 200, the body is empty, or the bytes
do not load as a workbook, and otherwise yields the local path; the
document fetch helper `download_file` checks only the HTTP status — the
scheme is rejected earlier by its callers, and an empty or unparseable
body is not rejected at fetch time (it surfaces later, during
extraction). -/
theorem C4_fetch_failure_conditions (url tmpName : String) (max_rows max_cells : Int)
    (resp : HttpResponse) (h1 : 0 < max_rows) (h2 : 0 < max_cells) :
    ((∃ e, (read_data_fetch url max_rows max_cells tmpName resp).result = .error e) ↔
      (hasHttpScheme url = false ∨ resp.status ≠ 200 ∨ resp.bodySize = 0
        ∨ resp.validExcel = false))
    ∧ (hasHttpScheme url = true → resp.status = 200 → resp.bodySize ≠ 0 →
        resp.validExcel = true →
        (read_data_fetch url max_rows max_cells tmpName resp).result = .ok tmpName)
    ∧ ((∃ e, (download_file url tmpName resp).result = .error e) ↔ resp.status ≠ 200)
    ∧ (resp.status = 200 → (download_file url tmpName resp).result = .ok tmpName) := by
  unfold read_data_fetch download_file
  have hparams : ¬(max_rows ≤ 0 ∨ max_cells ≤ 0) := by
    push_neg
    exact ⟨h1, h2⟩
  split_ifs with g1 g2 g3 g4 g5 <;> simp_all

/-- C4 witness: a well-formed 200 response with a non-empty valid body
fetches to the temp path on both fetch paths. -/
theorem C4_fetch_failure_conditions_witness :
    (0 : Int) < 100 ∧ (0 : Int) < 1000
    ∧ (read_data_fetch "http://e/a.xlsx" 100 1000 "t" ⟨200, 5, true, ""⟩).result = .ok "t"
    ∧ (download_file "http://e/a.xlsx" "t" ⟨200, 5, true, ""⟩).result = .ok "t" := by
  refine ⟨by decide, by decide, ?_, ?_⟩
  · exact (C4_fetch_failure_conditions "http://e/a.xlsx" "t" 100 1000 ⟨200, 5, true, ""⟩
      (by decide) (by decide)).2.1 (by decide) rfl (by decide) rfl
  · exact (C4_fetch_failure_conditions "http://e/a.xlsx" "t" 100 1000 ⟨200, 5, true, ""⟩
      (by decide) (by decide)).2.2.2 rfl

/-- C5.  `get_excel_path` returns an absolute filename unchanged; joins a
relative filename against the configured base directory when one is set;
and otherwise resolves it against the process working directory
(`os.path.abspath`, i.e. the join followed by lexical normalisation).
The embedding is a pure function of the filename, the configured base
and the working directory: resolution performs no I/O. -/
theorem C5_path_resolver (base : Option String) (cwd filename : String) :
    (isabs filename = true → get_excel_path base cwd filename = filename)
    ∧ (∀ b, isabs filename = false → base = some b →
        get_excel_path base cwd filename = posixJoin b filename)
    ∧ (isabs filename = false → base = none →
        get_excel_path base cwd filename = normpath (posixJoin cwd filename)) := by
  refine ⟨?_, ?_, ?_⟩
  · intro h
    simp [get_excel_path, h]
  · intro b h hb
    subst hb
    simp [get_excel_path, h]
  · intro h hb
    subst hb
    simp [get_excel_path, abspath, h]

/-- C5 witness: the three resolution cases at concrete paths. -/
theorem C5_path_resolver_witness :
    get_excel_path none "/cwd" "/abs/f.xlsx" = "/abs/f.xlsx"
    ∧ get_excel_path (some "/base") "/cwd" "f.xlsx" = "/base/f.xlsx"
    ∧ get_excel_path none "/cwd" "f.xlsx" = "/cwd/f.xlsx" := by
  refine ⟨(C5_path_resolver none "/cwd" "/abs/f.xlsx").1 (by decide), ?_, ?_⟩
  · rw [(C5_path_resolver (some "/base") "/cwd" "f.xlsx").2.1 "/base" (by decide) rfl]
    decide
  · rw [(C5_path_resolver none "/cwd" "f.xlsx").2.2 (by decide) rfl]
    decide

/-- C7.  The claim states that every successful invocation of a tool with
auto-upload semantics pushes the copy and appends a download URL.
Concrete refutation: when the SFTP push raises,
`extract_tables_from_document` still returns a success response — with
`upload_error` recorded, an empty `download_url`, and only the copy (no
push) among its effects. -/
theorem C7_extract_upload_failure_counterexample :
    extract_tables_finish true "m" "/tmp/o.xlsx" true "h" false
      = ([.copyFile "/tmp/o.xlsx" ("/tmp/" ++ ("extracted_" ++ "h" ++ ".xlsx"))],
         .ok { success := true, message := "m", download_url := "",
               uploaded_filename := "", upload_error := some "upload failed" }) := by
  decide

/-- C7 (amended).  For `write_data_to_excel` the property holds
unconditionally: a successful SFTP push copies the artifact under a
fresh `/tmp/uploaded_<uuid>.xlsx` name, pushes it to `/root/files/`, and
appends the public URL to the returned message, and a failed push
re-raises (so there is no successful return without the upload).  For
`extract_tables_from_document` the property holds when the push
succeeds; when the push raises, the handler still returns a success
response with `upload_error` set and an empty download URL. -/
theorem C7_auto_upload (writeMsg uuidHex fullPath msg outFile : String)
    (hout : outFile ≠ "") :
    write_data_upload writeMsg uuidHex fullPath true
      = ([.copyFile fullPath ("/tmp/" ++ ("uploaded_" ++ uuidHex ++ ".xlsx")),
          .sftpPut ("/tmp/" ++ ("uploaded_" ++ uuidHex ++ ".xlsx"))
            ("/root/files/" ++ ("uploaded_" ++ uuidHex ++ ".xlsx"))],
         .ok (writeMsg ++ "\n公网下载链接: http://8.156.74.79:8001/"
              ++ ("uploaded_" ++ uuidHex ++ ".xlsx")))
    ∧ (∃ exc, (write_data_upload writeMsg uuidHex fullPath false).2 = .error exc)
    ∧ extract_tables_finish true msg outFile true uuidHex true
      = ([.copyFile outFile ("/tmp/" ++ ("extracted_" ++ uuidHex ++ ".xlsx")),
          .sftpPut ("/tmp/" ++ ("extracted_" ++ uuidHex ++ ".xlsx"))
            ("/root/files/" ++ ("extracted_" ++ uuidHex ++ ".xlsx"))],
         .ok { success := true, message := msg,
               download_url := "http://8.156.74.79:8001/" ++ ("extracted_" ++ uuidHex ++ ".xlsx"),
               uploaded_filename := "extracted_" ++ uuidHex ++ ".xlsx",
               upload_error := none }) := by
  refine ⟨rfl, ⟨(.otherError, "upload failed"), rfl⟩, ?_⟩
  unfold extract_tables_finish
  rw [if_neg (by simp), if_pos ⟨rfl, hout⟩, if_pos rfl]

/-- C7 witness: concrete message, uuid and artifact paths. -/
theorem C7_auto_upload_witness :
    write_data_upload "Data written to Sheet1" "h" "/tmp/w.xlsx" true
      = ([.copyFile "/tmp/w.xlsx" ("/tmp/" ++ ("uploaded_" ++ "h" ++ ".xlsx")),
          .sftpPut ("/tmp/" ++ ("uploaded_" ++ "h" ++ ".xlsx"))
            ("/root/files/" ++ ("uploaded_" ++ "h" ++ ".xlsx"))],
         .ok ("Data written to Sheet1" ++ "\n公网下载链接: http://8.156.74.79:8001/"
              ++ ("uploaded_" ++ "h" ++ ".xlsx")))
    ∧ (∃ exc, (write_data_upload "Data written to Sheet1" "h" "/tmp/w.xlsx" false).2 = .error exc)
    ∧ extract_tables_finish true "成功提取1个表格" "/tmp/o.xlsx" true "h" true
      = ([.copyFile "/tmp/o.xlsx" ("/tmp/" ++ ("extracted_" ++ "h" ++ ".xlsx")),
          .sftpPut ("/tmp/" ++ ("extracted_" ++ "h" ++ ".xlsx"))
            ("/root/files/" ++ ("extracted_" ++ "h" ++ ".xlsx"))],
         .ok { success := true, message := "成功提取1个表格",
               download_url := "http://8.156.74.79:8001/" ++ ("extracted_" ++ "h" ++ ".xlsx"),
               uploaded_filename := "extracted_" ++ "h" ++ ".xlsx",
               upload_error := none }) :=
  C7_auto_upload "Data written to Sheet1" "h" "/tmp/w.xlsx" "成功提取1个表格" "/tmp/o.xlsx"
    (by decide)

/-- Auxiliary: the by-name update map of `write_data` keeps sheet names,
so when the target name is absent from a sheet list, the search for it
skips all of that list's (updated) sheets. -/
theorem find_update_none (l : List Sheet) (sn : String)
    (g : Sheet → List ((Nat × Nat) × String)) (h : sn ∉ l.map Sheet.name) :
    (l.map (fun s => if s.name = sn then Sheet.mk s.name (g s) else s)).find?
      (fun s => s.name = sn) = none := by
  rw [List.find?_eq_none]
  intro x hx
  obtain ⟨s, hsmem, rfl⟩ := List.mem_map.mp hx
  have hne : s.name ≠ sn := by
    intro hEq
    exact h (hEq ▸ List.mem_map_of_mem Sheet.name hsmem)
  simp [hne]

/-- Auxiliary: writing to a position no existing entry occupies appends
the new entry. -/
theorem setCell_fresh (cells : List ((Nat × Nat) × String)) (pos : Nat × Nat) (v : String)
    (h : ∀ q ∈ cells, q.1 ≠ pos) : setCell cells pos v = cells ++ [(pos, v)] := by
  have hc : ¬(cells.any (fun q => q.1 = pos) = true) := by
    intro hcc
    obtain ⟨q, hq, hq2⟩ := List.any_eq_true.mp hcc
    exact h q hq (by simpa using hq2)
  unfold setCell
  rw [if_neg hc]

/-- Auxiliary: writing a 2-column, 3-row payload into an empty cell list
produces exactly the six expected entries, in write order. -/
theorem writeRows_two_cols_three_rows (r0 c0 : Nat) (a b c d e f : String) :
    writeRows [] r0 c0 [[a, b], [c, d], [e, f]]
      = [((r0, c0), a), ((r0, c0 + 1), b), ((r0 + 1, c0), c), ((r0 + 1, c0 + 1), d),
         ((r0 + 2, c0), e), ((r0 + 2, c0 + 1), f)] := by
  simp only [writeRows, writeRow]
  rw [setCell_fresh [] (r0, c0) a (by simp), List.nil_append]
  rw [setCell_fresh [((r0, c0), a)] (r0, c0 + 1) b
    (by intro q hq; fin_cases hq; simp [Prod.ext_iff])]
  rw [List.singleton_append]
  rw [setCell_fresh [((r0, c0), a), ((r0, c0 + 1), b)] (r0 + 1, c0) c
    (by intro q hq; fin_cases hq <;> simp [Prod.ext_iff])]
  rw [show ([((r0, c0), a), ((r0, c0 + 1), b)] ++ [((r0 + 1, c0), c)])
      = [((r0, c0), a), ((r0, c0 + 1), b), ((r0 + 1, c0), c)] from rfl]
  rw [setCell_fresh [((r0, c0), a), ((r0, c0 + 1), b), ((r0 + 1, c0), c)] (r0 + 1, c0 + 1) d
    (by intro q hq; fin_cases hq <;> simp [Prod.ext_iff])]
  rw [show ([((r0, c0), a), ((r0, c0 + 1), b), ((r0 + 1, c0), c)] ++ [((r0 + 1, c0 + 1), d)])
      = [((r0, c0), a), ((r0, c0 + 1), b), ((r0 + 1, c0), c), ((r0 + 1, c0 + 1), d)] from rfl]
  rw [setCell_fresh [((r0, c0), a), ((r0, c0 + 1), b), ((r0 + 1, c0), c), ((r0 + 1, c0 + 1), d)]
    (r0 + 2, c0) e
    (by intro q hq; fin_cases hq <;> simp [Prod.ext_iff])]
  rw [show ([((r0, c0), a), ((r0, c0 + 1), b), ((r0 + 1, c0), c), ((r0 + 1, c0 + 1), d)]
        ++ [((r0 + 2, c0), e)])
      = [((r0, c0), a), ((r0, c0 + 1), b), ((r0 + 1, c0), c), ((r0 + 1, c0 + 1), d),
         ((r0 + 2, c0), e)] from rfl]
  rw [setCell_fresh [((r0, c0), a), ((r0, c0 + 1), b), ((r0 + 1, c0), c), ((r0 + 1, c0 + 1), d),
      ((r0 + 2, c0), e)] (r0 + 2, c0 + 1) f
    (by intro q hq; fin_cases hq <;> simp [Prod.ext_iff])]
  rfl

/-- C6.  Writing a well-formed 2-column, 3-row payload with a sheet name
absent from the target workbook succeeds, creates the sheet, and the
created sheet holds exactly the six values at the coordinates implied by
the start cell.  (`excel_mcp.data.write_data` and
`excel_mcp.workbook.create_workbook` are not among the sources and are
modelled from the spec; the existence/creation logic is server.py lines
852-866.) -/
theorem C6_write_creates_sheet_and_cells (wb : Workbook) (sn a b c d e f start : String)
    (r0 c0 : Nat) (hs : sn ∉ wb.sheetnames) (hp : parseCellRef start = some (r0, c0)) :
    ∃ wb2, write_data_to_excel (some wb) (some sn) [[a, b], [c, d], [e, f]] start = .ok wb2
      ∧ wb2.findSheet sn = some ⟨sn, [((r0, c0), a), ((r0, c0 + 1), b),
          ((r0 + 1, c0), c), ((r0 + 1, c0 + 1), d),
          ((r0 + 2, c0), e), ((r0 + 2, c0 + 1), f)]⟩ := by
  have hprep : prepare_workbook (some wb) (some sn) = ⟨wb.sheets ++ [⟨sn, []⟩]⟩ := by
    simp [prepare_workbook, Workbook.create_sheet, hs]
  have hmem2 : sn ∈ (Workbook.mk (wb.sheets ++ [⟨sn, []⟩])).sheetnames := by
    simp [Workbook.sheetnames]
  refine ⟨Workbook.mk ((wb.sheets ++ [Sheet.mk sn []]).map (fun s =>
      if s.name = sn then Sheet.mk s.name (writeRows s.cells r0 c0 [[a, b], [c, d], [e, f]])
      else s)), ?_, ?_⟩
  · unfold write_data_to_excel
    rw [hprep]
    simp [write_data, hp, hmem2]
  · unfold Workbook.findSheet
    simp only [List.map_append, List.find?_append]
    rw [find_update_none wb.sheets sn (fun s => writeRows s.cells r0 c0 [[a, b], [c, d], [e, f]])
      hs]
    simp [writeRows_two_cols_three_rows]

/-- C6 witness: a fresh workbook whose only sheet is the default `Sheet`,
target sheet `S1`, start cell `A1`. -/
theorem C6_write_creates_sheet_and_cells_witness :
    ∃ wb2, write_data_to_excel (some ⟨[⟨"Sheet", []⟩]⟩) (some "S1")
        [["x1", "y1"], ["x2", "y2"], ["x3", "y3"]] "A1" = .ok wb2
      ∧ wb2.findSheet "S1" = some ⟨"S1", [((1, 1), "x1"), ((1, 1 + 1), "y1"),
          ((1 + 1, 1), "x2"), ((1 + 1, 1 + 1), "y2"),
          ((1 + 2, 1), "x3"), ((1 + 2, 1 + 1), "y3")]⟩ :=
  C6_write_creates_sheet_and_cells ⟨[⟨"Sheet", []⟩]⟩ "S1" "x1" "y1" "x2" "y2" "x3" "y3" "A1" 1 1
    (by decide) (by decide)

/-- C9.  `write_data_to_excel` never fails merely because the file or the
sheet does not exist yet: with any filesystem state (`none` = no file at
the resolved path) and any sheet name, the preparation phase yields a
workbook containing the sheet, and the handler's write succeeds for any
payload and well-formed start cell. -/
theorem C9_write_auto_creates (fs : Option Workbook) (sn : String)
    (data : List (List String)) (start : String) (rc : Nat × Nat)
    (hp : parseCellRef start = some rc) :
    sn ∈ (prepare_workbook fs (some sn)).sheetnames
    ∧ ∃ wb2, write_data_to_excel fs (some sn) data start = .ok wb2 := by
  have key : ∀ wb0 : Workbook,
      sn ∈ (if sn ∈ wb0.sheetnames then wb0 else wb0.create_sheet sn).sheetnames := by
    intro wb0
    by_cases hc : sn ∈ wb0.sheetnames
    · rw [if_pos hc]
      exact hc
    · rw [if_neg hc]
      simp [Workbook.sheetnames, Workbook.create_sheet]
  have hmem : sn ∈ (prepare_workbook fs (some sn)).sheetnames := by
    cases fs <;> exact key _
  refine ⟨hmem, ?_⟩
  unfold write_data_to_excel
  simp [write_data, hp, hmem]

/-- C9 witness: no file at the target path, sheet `S1`, a one-cell
payload at `A1`. -/
theorem C9_write_auto_creates_witness :
    "S1" ∈ (prepare_workbook none (some "S1")).sheetnames
    ∧ ∃ wb2, write_data_to_excel none (some "S1") [["x"]] "A1" = .ok wb2 :=
  C9_write_auto_creates none "S1" [["x"]] "A1" (1, 1) (by decide)

end ExcelMCP
